import Mathlib

/-!
Shallow embedding of the API_LOGS anomaly-detection monitors
(`ai-anomaly-detector/monitoring/monitor_services.py`, class `ServiceMonitor`,
and `ai-anomaly-detector/monitoring/run_monitor.py`, class `APIMonitor`),
with theorems settling the frozen claims about the spec.

Conventions of the embedding:
* instants and durations are rationals (seconds since an arbitrary epoch);
* a raw Elasticsearch hit's `_source` is a structure of optional fields,
  mirroring the `source.get(...)` chains of the Python code;
* a field whose value pandas' `to_datetime` cannot parse is `TSField.unparseable`;
  a missing `@timestamp` is `TSField.missing` (pandas turns it into `NaT`,
  which the time `Grouper` silently drops from every group);
* Python exceptions are `Except.error`; a caught-and-logged exception that
  makes the function return `None`/`False` is modelled by the same value the
  caller observes;
* `duration_ms_std_sq` stores the square of pandas' sample standard deviation
  (`ddof = 1`, `fillna 0` for singleton groups).  The square root is irrational
  in general; since the scaler and model consume the column only through opaque
  function parameters, carrying the square is equivalent up to precomposing
  those parameters with a square root on that coordinate, and keeps the whole
  development inside `ℚ`.
-/

deriving instance DecidableEq for Except

set_option allowUnsafeReducibility true in
attribute [semireducible] Rat.sub Rat.add Rat.mul Rat.div Rat.neg Rat.inv

namespace APILogS

/-- The `@timestamp` field of a raw document, as seen by `pd.to_datetime`. -/
inductive TSField where
  | missing
  | unparseable
  | valid (t : ℚ)
deriving DecidableEq

/-- The `_source` of one Elasticsearch hit.  Each `Option` mirrors one
`source.get(...)` fallback read in `ServiceMonitor.process_logs`. -/
structure Source where
  timestamp : TSField := TSField.missing
  serviceName : Option String := none
  labelsService : Option String := none
  requestEndpoint : Option String := none
  httpTarget : Option String := none
  requestMethod : Option String := none
  httpMethod : Option String := none
  responseStatusCode : Option ℤ := none
  httpStatusCode : Option ℤ := none
  responseDurationMs : Option ℚ := none
  durationMs : Option ℚ := none
  isError : Option Bool := none
deriving DecidableEq

/-- One normalized record, as built by the per-hit loop of
`ServiceMonitor.process_logs` (lines 104-137). -/
structure LogRecord where
  timestamp : TSField
  service : String
  endpoint : String
  method : String
  status_code : ℤ
  duration_ms : ℚ
  is_error : Bool
deriving DecidableEq

/-- The per-hit field extraction of `ServiceMonitor.process_logs`:
precedence chains with fixed defaults, `is_error` defaulting to
`status_code >= 400`. -/
def extractRecord (s : Source) : LogRecord :=
  let status : ℤ := s.responseStatusCode.getD (s.httpStatusCode.getD 200)
  { timestamp := s.timestamp
    service := s.serviceName.getD (s.labelsService.getD "unknown")
    endpoint := s.requestEndpoint.getD (s.httpTarget.getD "/unknown")
    method := s.requestMethod.getD (s.httpMethod.getD "GET")
    status_code := status
    duration_ms := s.responseDurationMs.getD (s.durationMs.getD 0)
    is_error := s.isError.getD (decide (400 ≤ status)) }

/-- One row of the aggregated feature DataFrame returned by
`ServiceMonitor.process_logs` (after `reset_index` the window start is the
`timestamp` column).  `duration_ms_std_sq` is the square of pandas' `std`. -/
structure FeatureRow where
  timestamp : ℚ
  service : String
  endpoint : String
  duration_ms_count : ℕ
  duration_ms_mean : ℚ
  duration_ms_std_sq : ℚ
  duration_ms_min : ℚ
  duration_ms_max : ℚ
  duration_ms_median : ℚ
  is_error_sum : ℕ
  is_error_mean : ℚ
  status_code_nunique : ℕ
  error_rate : ℚ
  requests_per_minute : ℚ
deriving DecidableEq

/-- `pd.Grouper(freq="1min")`: truncate an instant to its containing
one-minute window. -/
def windowStart (t : ℚ) : ℚ := ((⌊t / 60⌋ : ℤ) : ℚ) * 60

/-- Records that carry a real (parsed, non-`NaT`) timestamp, paired with it.
The time `Grouper` drops `NaT` rows from every group. -/
def validRecs (rs : List LogRecord) : List (ℚ × LogRecord) :=
  rs.filterMap fun r =>
    match r.timestamp with
    | TSField.valid t => some (t, r)
    | _ => none

/-- The grouping key `(window_start, service, endpoint)` of one timestamped
record. -/
def recKey (p : ℚ × LogRecord) : ℚ × String × String :=
  (windowStart p.1, p.2.service, p.2.endpoint)

/-- The distinct group keys present in a record list. -/
def groupKeys (rs : List (ℚ × LogRecord)) : List (ℚ × String × String) :=
  (rs.map recKey).dedup

/-- The members of one group. -/
def groupOf (k : ℚ × String × String) (rs : List (ℚ × LogRecord)) :
    List (ℚ × LogRecord) :=
  rs.filter fun p => decide (recKey p = k)

def listSum (l : List ℚ) : ℚ := l.foldr (· + ·) 0

/-- pandas `mean` (groups are nonempty, so the `n = 0` case is never hit). -/
def listMean (l : List ℚ) : ℚ := listSum l / (l.length : ℚ)

def listMin : List ℚ → ℚ
  | [] => 0
  | x :: xs => xs.foldl min x

def listMax : List ℚ → ℚ
  | [] => 0
  | x :: xs => xs.foldl max x

/-- pandas `median`: middle order statistic, averaging the two middle
elements for even length. -/
def listMedian (l : List ℚ) : ℚ :=
  let s := l.insertionSort (· ≤ ·)
  let n := l.length
  if n % 2 = 1 then s.getD (n / 2) 0
  else (s.getD (n / 2 - 1) 0 + s.getD (n / 2) 0) / 2

/-- Square of pandas' sample `std` (`ddof = 1`); the `fillna 0` of
`process_logs` makes singleton groups `0` instead of `NaN`. -/
def sampleStdSq (l : List ℚ) : ℚ :=
  if l.length ≤ 1 then 0
  else
    let μ := listMean l
    listSum (l.map fun x => (x - μ) ^ 2) / ((l.length : ℚ) - 1)

/-- The `grouped.agg`/`error_rate`/`requests_per_minute`/`fillna` block of
`ServiceMonitor.process_logs` for one (nonempty) group.  `window_minutes = 1`.
The `fillna` of `error_rate` and `duration_ms_median` only ever acts on
empty groups, which do not occur. -/
def aggregateGroup (k : ℚ × String × String) (g : List (ℚ × LogRecord)) :
    FeatureRow :=
  let ds := g.map fun p => p.2.duration_ms
  let n := g.length
  let errSum := (g.filter fun p => p.2.is_error).length
  { timestamp := k.1
    service := k.2.1
    endpoint := k.2.2
    duration_ms_count := n
    duration_ms_mean := listMean ds
    duration_ms_std_sq := sampleStdSq ds
    duration_ms_min := listMin ds
    duration_ms_max := listMax ds
    duration_ms_median := listMedian ds
    is_error_sum := errSum
    is_error_mean := (errSum : ℚ) / (n : ℚ)
    status_code_nunique := ((g.map fun p => p.2.status_code).dedup).length
    error_rate := ((errSum : ℚ) / (n : ℚ)) * 100
    requests_per_minute := (n : ℚ) / 1 }

/-- The pure part of `ServiceMonitor.process_logs`: normalize the hits,
convert timestamps (`pd.to_datetime` raises on the whole batch if any one
value is unparseable), group by 1-minute window x service x endpoint and
aggregate.  The early `if not data: return pd.DataFrame()` is the
`hits = []` branch. -/
def computeFeatures (hits : List Source) : Except String (List FeatureRow) :=
  let data := hits.map extractRecord
  if data.isEmpty then Except.ok []
  else if data.any fun r => decide (r.timestamp = TSField.unparseable) then
    Except.error "to_datetime: unable to parse timestamp"
  else
    let vr := validRecs data
    Except.ok ((groupKeys vr).map fun k => aggregateGroup k (groupOf k vr))

/-- One value of the `self.service_stats` dictionary (created at lines
193-201 of `monitor_services.py`). -/
structure StatEntry where
  service : String
  endpoint : String
  request_count : ℕ
  avg_duration : ℚ
  error_count : ℕ
  anomaly_count : ℕ
  last_anomaly : Option ℚ
deriving DecidableEq

/-- `self.service_stats`: a string-keyed dictionary, embedded as an
association list with first-match lookup and in-place assignment. -/
def Stats := List (String × StatEntry)

instance : DecidableEq Stats := by
  unfold Stats
  infer_instance

/-- Dictionary lookup `self.service_stats[k]` / `k in self.service_stats`. -/
def statLookup : Stats → String → Option StatEntry
  | [], _ => none
  | (k', e) :: rest, k => if k' = k then some e else statLookup rest k

/-- Dictionary assignment `self.service_stats[k] = e`: replace the existing
binding, else append a new one. -/
def setEntry : Stats → String → StatEntry → Stats
  | [], k, e => [(k, e)]
  | (k', e') :: rest, k, e =>
      if k' = k then (k, e) :: rest else (k', e') :: setEntry rest k e

/-- The dictionary key `f"{service}:{endpoint}"`. -/
def statKey (service endpoint : String) : String := service ++ ":" ++ endpoint

/-- The fresh entry created for an unseen `(service, endpoint)` pair:
all counters zero, `last_anomaly = None`. -/
def freshEntry (service endpoint : String) : StatEntry :=
  { service := service, endpoint := endpoint, request_count := 0
    avg_duration := 0, error_count := 0, anomaly_count := 0
    last_anomaly := none }

/-- The per-row stats update of `process_logs` (lines 203-207): counters and
the blended average; the anomaly fields are not touched here. -/
def bumpEntry (e : StatEntry) (row : FeatureRow) : StatEntry :=
  { e with
    request_count := e.request_count + row.duration_ms_count
    avg_duration := (e.avg_duration + row.duration_ms_mean) / 2
    error_count := e.error_count + row.is_error_sum }

/-- One iteration of the `for _, row in features.iterrows()` loop of
`process_logs`: create the entry if absent, then bump its counters. -/
def updateStatsRow (s : Stats) (row : FeatureRow) : Stats :=
  let k := statKey row.service row.endpoint
  let e := (statLookup s k).getD (freshEntry row.service row.endpoint)
  setEntry s k (bumpEntry e row)

/-- The whole stats-update loop of `process_logs`. -/
def updateStats (s : Stats) (rows : List FeatureRow) : Stats :=
  rows.foldl updateStatsRow s

/-- `ServiceMonitor.process_logs`: compute the feature frame from the hits,
then update `self.service_stats` from its rows.  An exception inside
(`pd.to_datetime`) propagates before any stats update. -/
def process_logs (s : Stats) (hits : List Source) :
    Except String (Stats × List FeatureRow) :=
  (computeFeatures hits).map fun rows => (updateStats s rows, rows)

/-- The loaded scoring artifact: ordered feature names, the scaler's
`transform`, and the model's `predict == -1` / `decision_function`.  The
three numeric maps are opaque parameters of the embedding. -/
structure Model where
  features : List String
  scaler : List ℚ → List ℚ
  predictAnom : List ℚ → Bool
  score : List ℚ → ℚ

/-- The columns of the feature DataFrame returned by `process_logs`
(after `reset_index`). -/
def frameColumns : List String :=
  ["timestamp", "service", "endpoint",
   "duration_ms_count", "duration_ms_mean", "duration_ms_std",
   "duration_ms_min", "duration_ms_max", "duration_ms_median",
   "is_error_sum", "is_error_mean", "status_code_nunique",
   "error_rate", "requests_per_minute"]

/-- The numeric value of one DataFrame column of a row; `none` for the
non-numeric columns (`service`, `endpoint`) and the datetime column
(`timestamp`), whose selection into the scaler would raise.  The
`duration_ms_std` column carries the square root of `duration_ms_std_sq`;
see the header note. -/
def colValue (row : FeatureRow) : String → Option ℚ
  | "duration_ms_count" => some (row.duration_ms_count : ℚ)
  | "duration_ms_mean" => some row.duration_ms_mean
  | "duration_ms_std" => some row.duration_ms_std_sq
  | "duration_ms_min" => some row.duration_ms_min
  | "duration_ms_max" => some row.duration_ms_max
  | "duration_ms_median" => some row.duration_ms_median
  | "is_error_sum" => some (row.is_error_sum : ℚ)
  | "is_error_mean" => some row.is_error_mean
  | "status_code_nunique" => some (row.status_code_nunique : ℚ)
  | "error_rate" => some row.error_rate
  | "requests_per_minute" => some row.requests_per_minute
  | _ => none

/-- `features[feature_cols]` for one row: project onto the selected columns,
raising if a selected column is not numeric. -/
def projectRow (cols : List String) (row : FeatureRow) :
    Except String (List ℚ) :=
  cols.mapM fun c =>
    match colValue row c with
    | some v => Except.ok v
    | none => Except.error "scaler: non-numeric column"

/-- A feature row after `detect_anomalies` has assigned the `is_anomaly` and
`anomaly_score` columns. -/
structure ScoredRow extends FeatureRow where
  is_anomaly : Bool
  anomaly_score : ℚ
deriving DecidableEq

/-- One entry of `self.anomaly_history` (lines 249-257). -/
structure HistEntry where
  timestamp : ℚ
  service : String
  endpoint : String
  duration_ms : ℚ
  error_rate : ℚ
  anomaly_score : ℚ
  requests_per_minute : ℚ
deriving DecidableEq

/-- What `detect_anomalies` returns: either the frame unchanged — in which
case the `is_anomaly`/`anomaly_score` columns are absent — or the scored
frame. -/
inductive DetectResult where
  | unscored (rows : List FeatureRow)
  | scored (rows : List ScoredRow)
deriving DecidableEq

/-- The anomaly-recording stats update (lines 243-246 of
`monitor_services.py`): only for a key already present, increment
`anomaly_count` and set `last_anomaly` — the two fields are touched together
and nowhere else. -/
def recordAnomalyStats (s : Stats) (row : ScoredRow) : Stats :=
  let k := statKey row.service row.endpoint
  match statLookup s k with
  | none => s
  | some e =>
      setEntry s k
        { e with
          anomaly_count := e.anomaly_count + 1
          last_anomaly := some row.timestamp }

def histOf (row : ScoredRow) : HistEntry :=
  { timestamp := row.timestamp, service := row.service
    endpoint := row.endpoint, duration_ms := row.duration_ms_mean
    error_rate := row.error_rate, anomaly_score := row.anomaly_score
    requests_per_minute := row.requests_per_minute }

/-- The mutable state of one `ServiceMonitor`. -/
structure SMState where
  model : Option Model
  last_check : ℚ
  service_stats : Stats
  anomaly_history : List HistEntry

/-- `ServiceMonitor.detect_anomalies`: with no model or an empty frame the
frame is returned unchanged; with zero overlapping feature columns a warning
is printed and the frame is returned unchanged (without anomaly columns);
otherwise score every row, then record each anomalous row into
`service_stats` and `anomaly_history`. -/
def detect_anomalies (st : SMState) (rows : List FeatureRow) :
    SMState × Except String DetectResult :=
  match st.model with
  | none => (st, Except.ok (DetectResult.unscored rows))
  | some M =>
      if rows.isEmpty then (st, Except.ok (DetectResult.unscored rows))
      else
        let feature_cols := M.features.filter fun c => frameColumns.contains c
        if feature_cols.isEmpty then
          (st, Except.ok (DetectResult.unscored rows))
        else
          match rows.mapM (projectRow feature_cols) with
          | Except.error e => (st, Except.error e)
          | Except.ok xs =>
              let scoredRows := (rows.zip xs).map fun p =>
                let z := M.scaler p.2
                { toFeatureRow := p.1
                  is_anomaly := M.predictAnom z
                  anomaly_score := M.score z }
              let anomalies := scoredRows.filter fun r => r.is_anomaly
              ({ st with
                 service_stats := anomalies.foldl recordAnomalyStats st.service_stats
                 anomaly_history := st.anomaly_history ++ anomalies.map histOf },
               Except.ok (DetectResult.scored scoredRows))

/-- The filter part of an Elasticsearch query body: either the
`range` filter on `@timestamp` built by `ServiceMonitor.get_recent_logs`
(`gte` inclusive, `lt` exclusive) or the `match_all` used by
`APIMonitor.get_recent_logs`. -/
inductive ESFilter where
  | rangeTimestamp (gte lt : ℚ)
  | matchAll
deriving DecidableEq

/-- An Elasticsearch query body: filter plus page size. -/
structure ESQuery where
  filter : ESFilter
  size : ℕ
deriving DecidableEq

/-- Whether a document with timestamp `t` satisfies the query's filter. -/
def matchesFilter : ESFilter → ℚ → Bool
  | ESFilter.rangeTimestamp a b, t => decide (a ≤ t) && decide (t < b)
  | ESFilter.matchAll, _ => true

/-- Python `int()` on a rational: truncation toward zero. -/
def pyTrunc (q : ℚ) : ℤ := if 0 ≤ q then ⌊q⌋ else ⌈q⌉

/-- `minutes_back = int((now - last_check).total_seconds() / 60) + 1`
(line 350 of `monitor_services.py`). -/
def minutesBack (last_check now : ℚ) : ℤ := pyTrunc ((now - last_check) / 60) + 1

/-- The query body built by `ServiceMonitor.get_recent_logs` for one check:
`range` filter `[now - minutes_back minutes, now)`, `size = 10000`. -/
def serviceQuery (last_check now : ℚ) : ESQuery :=
  { filter := ESFilter.rangeTimestamp (now - (minutesBack last_check now : ℚ) * 60) now
    size := 10000 }

/-- The query body built by `APIMonitor.get_recent_logs`: despite computing
`time_from`, the body sent is `match_all` with no time filter, `size = 10000`. -/
def apiQuery : ESQuery := { filter := ESFilter.matchAll, size := 10000 }

/-- The environment of one `ServiceMonitor.run_check` call: the wall-clock
instants observed, the outcome of the `load_models` retry, and the external
store's response to the search (a raised exception or the hits). -/
structure CheckEnv where
  now : ℚ
  now2 : ℚ
  reload : Option Model
  fetch : ESQuery → Except String (List Source)

/-- How one `run_check` call ended, when it did not raise. -/
inductive CheckOutcome where
  | noModels
  | noLogs
  | noFeatures
  | completed (anomalies : ℕ)
deriving DecidableEq

/-- Lines 344-347 of `run_check`: if no model is loaded, retry
`load_models`; on success the model is installed on `self`, on failure the
state is unchanged and the check will be skipped. -/
def reloadIfNeeded (st : SMState) (env : CheckEnv) : SMState :=
  match st.model with
  | some _ => st
  | none => { st with model := env.reload }

/-- The body of `run_check` after the model-load retry. -/
def run_check_core (st : SMState) (env : CheckEnv) : SMState × Except String CheckOutcome :=
  match st.model with
  | none => (st, Except.ok CheckOutcome.noModels)
  | some _ =>
      match env.fetch (serviceQuery st.last_check env.now) with
      | Except.error e => (st, Except.error e)
      | Except.ok hits =>
          if hits.isEmpty then (st, Except.ok CheckOutcome.noLogs)
          else
            match process_logs st.service_stats hits with
            | Except.error e => (st, Except.error e)
            | Except.ok (stats', rows) =>
                let st := { st with service_stats := stats' }
                if rows.isEmpty then (st, Except.ok CheckOutcome.noFeatures)
                else
                  match detect_anomalies st rows with
                  | (st', Except.error e) => (st', Except.error e)
                  | (st', Except.ok (DetectResult.unscored _)) =>
                      (st', Except.error "KeyError: is_anomaly")
                  | (st', Except.ok (DetectResult.scored srows)) =>
                      let anomalies := srows.filter fun r => r.is_anomaly
                      ({ st' with last_check := env.now2 },
                       Except.ok (CheckOutcome.completed anomalies.length))

/-- `ServiceMonitor.run_check` (lines 340-376): retry the model load if
needed; fetch `[now - minutes_back, now)`; return early (without touching
`last_check`) on zero hits or an empty feature frame; score; then
`anomalies = features[features["is_anomaly"]]` — a `KeyError` when
`detect_anomalies` returned the frame without that column; report; and only
then `self.last_check = datetime.now()`. -/
def run_check (st₀ : SMState) (env : CheckEnv) : SMState × Except String CheckOutcome :=
  run_check_core (reloadIfNeeded st₀ env) env

/-- Whether a `run_check` outcome is the fully completed
fetch/aggregate/score/report path. -/
def isCompleted : Except String CheckOutcome → Bool
  | Except.ok (CheckOutcome.completed _) => true
  | _ => false

/-- `ServiceMonitor.__init__`: construction always succeeds; a failed
`load_models` only leaves `self.model = None` (no exception, no exit);
`last_check` starts five minutes in the past. -/
def ServiceMonitor_init (loadResult : Option Model) (now : ℚ) : SMState :=
  { model := loadResult
    last_check := now - 300
    service_stats := []
    anomaly_history := [] }

/-- `APIMonitor.load_models` (via `__init__`): a load failure is logged and
re-raised, so construction itself fails. -/
def APIMonitor_init (loadResult : Option Model) : Except String Model :=
  match loadResult with
  | some M => Except.ok M
  | none => Except.error "Error loading models"

/-- One row of the `anomalies_df` handed to `APIMonitor.send_alerts`
(the fields the dispatch loop reads). -/
structure AnomalyRec where
  service : String
  endpoint : String
  duration_ms_mean : ℚ
  is_error_mean : ℚ
  anomaly_score : ℚ
  detection_time : ℚ
deriving DecidableEq

/-- The document indexed into `api-anomalies` for one anomaly. -/
structure AlertDoc extends AnomalyRec where
  alert_type : String
  alert_severity : String
deriving DecidableEq

/-- The per-record metadata block of `APIMonitor.send_alerts` (lines
270-272): fixed `alert_type`, severity `high` iff `anomaly_score < -0.15`,
else `medium`. -/
def buildAlertDoc (r : AnomalyRec) : AlertDoc :=
  { toAnomalyRec := r
    alert_type := "api_anomaly"
    alert_severity := if r.anomaly_score < -(15 / 100 : ℚ) then "high" else "medium" }

/-- The dispatch loop body of `send_alerts`: the whole loop sits in a single
`try`, so the first failing `es.index` call aborts the remaining records and
the function returns `False`.  Returns the documents actually written and
the boolean result. -/
def send_alertsGo (sink : AlertDoc → Bool) :
    List AnomalyRec → List AlertDoc × Bool
  | [] => ([], true)
  | r :: rest =>
      let d := buildAlertDoc r
      if sink d then
        let out := send_alertsGo sink rest
        (d :: out.1, out.2)
      else ([], false)

/-- `APIMonitor.send_alerts`: empty input is a no-op success; otherwise run
the dispatch loop. -/
def send_alerts (sink : AlertDoc → Bool) (anomalies : List AnomalyRec) :
    List AlertDoc × Bool :=
  if anomalies.isEmpty then ([], true)
  else send_alertsGo sink anomalies

/-- The service-statistics maps reachable by the two — and only two — code
sites that write `self.service_stats`: the counter upsert loop of
`process_logs` and the anomaly-recording loop of `detect_anomalies`,
starting from the empty dictionary of `__init__`. -/
inductive StatsReachable : Stats → Prop where
  | init : StatsReachable []
  | processStep (s : Stats) (rows : List FeatureRow) :
      StatsReachable s → StatsReachable (updateStats s rows)
  | detectStep (s : Stats) (rows : List ScoredRow) :
      StatsReachable s → StatsReachable (rows.foldl recordAnomalyStats s)

/-- The claimed invariant: in every entry, `last_anomaly` is set exactly
when `anomaly_count` is at least one. -/
def StatsInv (s : Stats) : Prop :=
  ∀ k e, statLookup s k = some e → (e.last_anomaly ≠ none ↔ 1 ≤ e.anomaly_count)

/-! ### Concrete instances used by counterexamples and witnesses -/

/-- A scoring model whose single feature matches an aggregate column and
which never flags. -/
def exModel : Model :=
  { features := ["duration_ms_mean"], scaler := id
    predictAnom := fun _ => false, score := fun _ => 0 }

/-- A scoring model whose feature list shares no name with the aggregate
frame's columns. -/
def exModelNoOverlap : Model :=
  { features := ["zzz_not_a_column"], scaler := id
    predictAnom := fun _ => false, score := fun _ => 0 }

/-- One well-formed hit: `svc /x`, status 200, 10 ms, at `t = 30`. -/
def exGoodHit : Source :=
  { timestamp := TSField.valid 30, serviceName := some "svc"
    requestEndpoint := some "/x", responseStatusCode := some 200
    responseDurationMs := some 10 }

/-- A hit whose `@timestamp` cannot be parsed. -/
def exBadHit : Source := { timestamp := TSField.unparseable }

/-- The single feature row aggregated from `[exGoodHit]`. -/
def exRow1 : FeatureRow :=
  { timestamp := 0, service := "svc", endpoint := "/x"
    duration_ms_count := 1, duration_ms_mean := 10, duration_ms_std_sq := 0
    duration_ms_min := 10, duration_ms_max := 10, duration_ms_median := 10
    is_error_sum := 0, is_error_mean := 0, status_code_nunique := 1
    error_rate := 0, requests_per_minute := 1 }

/-- The stats entry after recording `exRow1` into an empty stats map. -/
def exEntry1 : StatEntry :=
  { service := "svc", endpoint := "/x", request_count := 1
    avg_duration := 5, error_count := 0, anomaly_count := 0
    last_anomaly := none }

def exStats1 : Stats := [("svc:/x", exEntry1)]

/-- A monitor state with the benign model loaded and watermark `0`. -/
def exSt : SMState :=
  { model := some exModel, last_check := 0, service_stats := []
    anomaly_history := [] }

/-- The same monitor state with the zero-overlap model loaded. -/
def exStNoOverlap : SMState :=
  { model := some exModelNoOverlap, last_check := 0, service_stats := []
    anomaly_history := [] }

/-- An environment whose fetch returns zero records. -/
def exEnvNoLogs : CheckEnv :=
  ⟨90, 100, none, fun _ => Except.ok []⟩

/-- An environment whose fetch returns exactly `[exGoodHit]`. -/
def exEnvOneHit : CheckEnv :=
  ⟨90, 100, none, fun _ => Except.ok [exGoodHit]⟩

/-- An environment in which the model-load retry also fails. -/
def exEnvReloadFails : CheckEnv :=
  ⟨90, 100, none, fun _ => Except.ok [exGoodHit]⟩

/-- Two anomaly records for dispatch examples. -/
def exRecA : AnomalyRec := ⟨"a", "/x", 1, 0, 0, 0⟩

def exRecB : AnomalyRec := ⟨"b", "/y", 1, 0, -1, 0⟩

/-- A sink that rejects exactly the documents of service `"a"`: writing
`exRecA`'s alert fails while the sink stays reachable for every other
record. -/
def exSinkFailA : AlertDoc → Bool := fun d => decide (d.service ≠ "a")

/-- A sink that accepts every document. -/
def exSinkOk : AlertDoc → Bool := fun _ => true

/-! ### Helper lemmas -/

theorem mem_send_alertsGo_written (sink : AlertDoc → Bool) :
    ∀ (rs : List AnomalyRec) (d : AlertDoc), d ∈ (send_alertsGo sink rs).1 →
      ∃ r ∈ rs, d = buildAlertDoc r := by
  intro rs
  induction rs with
  | nil => intro d hd; simp [send_alertsGo] at hd
  | cons r rest ih =>
    intro d hd
    by_cases hs : sink (buildAlertDoc r) = true
    · simp only [send_alertsGo, hs, if_true] at hd
      rcases List.mem_cons.mp hd with h | h
      · exact ⟨r, List.mem_cons_self r rest, h⟩
      · obtain ⟨r', hr', hd'⟩ := ih d h
        exact ⟨r', List.mem_cons_of_mem r hr', hd'⟩
    · rw [Bool.not_eq_true] at hs
      simp [send_alertsGo, hs] at hd

/-! ### C8 — the aggregator is pure and stateless -/

/-- C8 (confirmed): the feature windows produced by `process_logs` are a
function of the input record set alone — the service-statistics state
threaded through does not influence them, so re-running the aggregator on
the same finite record set (from whatever state the first run left behind)
yields exactly the same windows. -/
theorem process_logs_windows_pure (s₁ s₂ : Stats) (hits : List Source) :
    (process_logs s₁ hits).map Prod.snd = computeFeatures hits ∧
    (process_logs s₁ hits).map Prod.snd = (process_logs s₂ hits).map Prod.snd := by
  unfold process_logs
  cases computeFeatures hits <;> exact ⟨rfl, rfl⟩

/-! ### C9 — alert severity threshold -/

/-- C9 (confirmed): every alert document dispatched by `send_alerts` has
`alert_severity = "high"` exactly when its `anomaly_score` is strictly below
the fixed threshold `-0.15`, and `"medium"` otherwise. -/
theorem alert_severity_threshold (sink : AlertDoc → Bool)
    (anomalies : List AnomalyRec) (d : AlertDoc)
    (hd : d ∈ (send_alerts sink anomalies).1) :
    d.alert_severity =
      if d.anomaly_score < -(15 / 100 : ℚ) then "high" else "medium" := by
  unfold send_alerts at hd
  by_cases he : anomalies.isEmpty
  · simp [he] at hd
  · simp only [he, if_false] at hd
    obtain ⟨r, _, rfl⟩ := mem_send_alertsGo_written sink anomalies d hd
    rfl

/-- Witness for C9: the alert built from a score of `-1` is dispatched and
is `"high"`. -/
theorem alert_severity_threshold_witness :
    buildAlertDoc exRecB ∈ (send_alerts exSinkOk [exRecB]).1 ∧
    (buildAlertDoc exRecB).alert_severity =
      (if (buildAlertDoc exRecB).anomaly_score < -(15 / 100 : ℚ) then "high"
       else "medium") :=
  ⟨by decide, alert_severity_threshold exSinkOk [exRecB] _ (by decide)⟩

/-! ### C1 — watermark behaviour (counterexample part) -/

/-- C1 (corrected), counterexample: a check whose fetch returns zero
records ends with outcome `noLogs` and leaves the watermark at `0`, even
though `now` is `100` — `run_check` returns early before the
`self.last_check = datetime.now()` line, so the benign zero-record path
does NOT advance the watermark as the claim states. -/
theorem run_check_zero_records_no_advance :
    (run_check exSt exEnvNoLogs).2 = Except.ok CheckOutcome.noLogs ∧
    (run_check exSt exEnvNoLogs).1.last_check = 0 ∧
    exEnvNoLogs.now2 = 100 ∧
    (run_check exSt exEnvNoLogs).1.last_check ≠ exEnvNoLogs.now2 := by
  refine ⟨by decide, by decide, by decide, by decide⟩

theorem reloadIfNeeded_last_check (st : SMState) (env : CheckEnv) :
    (reloadIfNeeded st env).last_check = st.last_check := by
  unfold reloadIfNeeded
  rcases hm : st.model with _ | M <;> simp [hm]

theorem detect_anomalies_cases (st : SMState) (rows : List FeatureRow) :
    (detect_anomalies st rows).1 = st ∨
    ∃ anomalies : List ScoredRow,
      (detect_anomalies st rows).1 =
        { st with
          service_stats := anomalies.foldl recordAnomalyStats st.service_stats
          anomaly_history := st.anomaly_history ++ anomalies.map histOf } := by
  unfold detect_anomalies
  rcases hm : st.model with _ | M
  · exact Or.inl rfl
  · dsimp only
    split
    · exact Or.inl rfl
    · split
      · exact Or.inl rfl
      · split
        · exact Or.inl rfl
        · exact Or.inr ⟨_, rfl⟩

theorem run_check_core_watermark (st : SMState) (env : CheckEnv) :
    (run_check_core st env).1.last_check =
      if isCompleted (run_check_core st env).2 then env.now2 else st.last_check := by
  obtain ⟨mo, lc, ss, ah⟩ := st
  unfold run_check_core
  rcases mo with _ | M
  · simp [isCompleted]
  · dsimp only
    rcases hf : env.fetch (serviceQuery lc env.now) with e | hits
    · simp [hf, isCompleted]
    · by_cases hh : hits.isEmpty = true
      · simp [hf, hh, isCompleted]
      · rcases hp : process_logs ss hits with e | p
        · simp [hf, hh, hp, isCompleted]
        · obtain ⟨stats', rows⟩ := p
          by_cases hr : rows.isEmpty = true
          · simp [hf, hh, hp, hr, isCompleted]
          · rcases hd : detect_anomalies ⟨some M, lc, stats', ah⟩ rows with ⟨st', res⟩
            have hlast : st'.last_check = lc := by
              have h2 := detect_anomalies_cases ⟨some M, lc, stats', ah⟩ rows
              rw [hd] at h2
              dsimp only at h2
              rcases h2 with h2 | ⟨a, h2⟩ <;> rw [h2]
            rcases res with e | dr
            · simp [hf, hh, hp, hr, hd, isCompleted, hlast]
            · rcases dr with rows' | srows
              · simp [hf, hh, hp, hr, hd, isCompleted, hlast]
              · simp [hf, hh, hp, hr, hd, isCompleted]

/-- C1 (corrected), amended claim: the watermark advances — to the `now`
taken at the end of the check — exactly when `run_check` runs all the way
through fetch, aggregation, scoring and reporting (outcome
`completed`); on the benign zero-record and zero-window early returns, on
the models-not-loaded skip, and on any raised stage the watermark is left
unchanged (the next check then widens its interval). -/
theorem run_check_watermark (st₀ : SMState) (env : CheckEnv) :
    (run_check st₀ env).1.last_check =
      if isCompleted (run_check st₀ env).2 then env.now2 else st₀.last_check := by
  unfold run_check
  rw [run_check_core_watermark, reloadIfNeeded_last_check]

/-! ### C2 — zero-overlap scoring crashes the check -/

/-- C2 (code_bug): when the loaded model's feature list shares no column
with the aggregated frame, `detect_anomalies` prints its warning and
returns the frame unchanged — without `is_anomaly`/`anomaly_score`
columns — and the enclosing `run_check` then raises a `KeyError` at
`features[features["is_anomaly"]]` instead of completing normally; the
watermark stays put. -/
theorem run_check_keyerror_on_zero_overlap :
    (detect_anomalies { exStNoOverlap with service_stats := exStats1 } [exRow1]).2
      = Except.ok (DetectResult.unscored [exRow1]) ∧
    (run_check exStNoOverlap exEnvOneHit).2 = Except.error "KeyError: is_anomaly" ∧
    (run_check exStNoOverlap exEnvOneHit).1.last_check = 0 := by
  refine ⟨by decide, by decide, by decide⟩

/-! ### C3 — dispatch batch aborts on first write failure (counterexample) -/

/-- C3 (corrected), counterexample: with a batch of two anomalies and a
sink that fails only on the first record's document, `send_alerts` writes
nothing and returns `False` — the remaining record is never written even
though the sink would have accepted it, because the whole write loop sits
in a single `try`. -/
theorem send_alerts_abort_counterexample :
    send_alerts exSinkFailA [exRecA, exRecB] = ([], false) ∧
    exSinkFailA (buildAlertDoc exRecB) = true := by
  refine ⟨by decide, by decide⟩

/-- C3 (corrected), amended claim: `send_alerts` writes the alert documents
of a batch in order until the first failing write; that failure aborts the
rest of the batch (later records are never written) and the whole call
returns `False`.  There is no per-record failure count, and the call does
not fail only on "batch cannot be opened": any single write failure fails
it. -/
theorem send_alerts_first_failure_aborts (sink : AlertDoc → Bool)
    (pre : List AnomalyRec) (r : AnomalyRec) (post : List AnomalyRec)
    (hpre : ∀ p ∈ pre, sink (buildAlertDoc p) = true)
    (hr : sink (buildAlertDoc r) = false) :
    send_alerts sink (pre ++ r :: post) = (pre.map buildAlertDoc, false) := by
  have hgo : ∀ l : List AnomalyRec, (∀ p ∈ l, sink (buildAlertDoc p) = true) →
      send_alertsGo sink (l ++ r :: post) = (l.map buildAlertDoc, false) := by
    intro l
    induction l with
    | nil => intro _; simp [send_alertsGo, hr]
    | cons p l' ih =>
      intro hl
      have hp := hl p (List.mem_cons_self p l')
      have hrest := ih fun q hq => hl q (List.mem_cons_of_mem _ hq)
      simp [send_alertsGo, hp, hrest]
  have hne : (pre ++ r :: post).isEmpty = false := by
    cases pre <;> rfl
  unfold send_alerts
  simp [hne, hgo pre hpre]

/-- Witness for C3's amended claim: a batch whose middle write fails keeps
the earlier document, drops the later one, and returns `False`. -/
theorem send_alerts_first_failure_aborts_witness :
    send_alerts exSinkFailA ([exRecB] ++ exRecA :: [exRecB])
      = (List.map buildAlertDoc [exRecB], false) :=
  send_alerts_first_failure_aborts exSinkFailA [exRecB] exRecA [exRecB]
    (by decide) (by decide)

/-! ### C4 — load failure does not abort ServiceMonitor (counterexample) -/

/-- C4 (corrected), counterexample: after a failed model load,
`ServiceMonitor.__init__` still returns a monitor (`model = None`, no
exception), and `run_check` on it — with the per-check reload also
failing — skips the check and returns normally: the degraded per-check mode
the claim says never happens. -/
theorem service_monitor_survives_load_failure :
    (ServiceMonitor_init none 0).model = none ∧
    (run_check (ServiceMonitor_init none 0) exEnvReloadFails).2
      = Except.ok CheckOutcome.noModels ∧
    (run_check (ServiceMonitor_init none 0) exEnvReloadFails).1.last_check
      = (ServiceMonitor_init none 0).last_check :=
  ⟨rfl, by decide, by decide⟩

/-- C4 (corrected), amended claim: the two monitors diverge.
`APIMonitor.load_models` re-raises, so a load failure aborts construction;
`ServiceMonitor` constructs successfully with `model = None` and every
`run_check` then retries the load and, when it still fails, skips that
check — a degraded per-check mode, with the state (watermark included)
untouched. -/
theorem load_failure_behaviour :
    (∀ M, APIMonitor_init (some M) = Except.ok M) ∧
    APIMonitor_init none = Except.error "Error loading models" ∧
    (∀ now, (ServiceMonitor_init none now).model = none) ∧
    (∀ (st : SMState) (env : CheckEnv), st.model = none → env.reload = none →
      run_check st env = (st, Except.ok CheckOutcome.noModels)) := by
  refine ⟨fun M => rfl, rfl, fun now => rfl, ?_⟩
  intro st env hm hr
  obtain ⟨mo, lc, ss, ah⟩ := st
  dsimp only at hm
  subst hm
  unfold run_check reloadIfNeeded run_check_core
  simp [hr]

/-- Witness for C4's amended claim: the degraded-mode branch at a concrete
monitor whose load (and reload) failed. -/
theorem load_failure_behaviour_witness :
    run_check (ServiceMonitor_init none 0) exEnvReloadFails
      = (ServiceMonitor_init none 0, Except.ok CheckOutcome.noModels) :=
  load_failure_behaviour.2.2.2 (ServiceMonitor_init none 0) exEnvReloadFails rfl rfl

/-! ### C5 — fetch interval (counterexample) -/

/-- C5 (corrected), counterexample: with watermark `0` and `now = 90`,
`ServiceMonitor.get_recent_logs` queries the range `[-30, 90)`, and the
instant `-10` — strictly before the watermark, hence outside
`[watermark, now)` — satisfies the query's filter: the fetch retrieves
documents outside the claimed interval. -/
theorem fetch_range_precedes_watermark :
    (serviceQuery 0 90).filter = ESFilter.rangeTimestamp (-30) 90 ∧
    matchesFilter (serviceQuery 0 90).filter (-10) = true ∧
    ¬ ((0 : ℚ) ≤ -10) := by
  refine ⟨by decide, by decide, by decide⟩

/-- C5 (corrected), amended claim: each `ServiceMonitor` fetch queries with
a half-open time-range filter `[now - m minutes, now)` (lower inclusive,
upper exclusive) and page size 10,000, where
`m = int((now - watermark)/60) + 1`; this interval CONTAINS `[watermark,
now)` but its lower bound lies strictly before the watermark, so documents
older than the watermark are re-fetched.  The `APIMonitor` variant sends
`match_all` with no time filter at all. -/
theorem serviceQuery_superset (lc now : ℚ) (h : lc ≤ now) :
    (serviceQuery lc now).size = 10000 ∧
    (∃ a, (serviceQuery lc now).filter = ESFilter.rangeTimestamp a now ∧ a < lc) ∧
    (∀ t, lc ≤ t → t < now → matchesFilter (serviceQuery lc now).filter t = true) ∧
    (∀ t, now ≤ t → matchesFilter (serviceQuery lc now).filter t = false) ∧
    apiQuery.filter = ESFilter.matchAll := by
  have h60 : (0 : ℚ) < 60 := by norm_num
  have hxnn : 0 ≤ (now - lc) / 60 := div_nonneg (sub_nonneg.mpr h) h60.le
  have hxt : pyTrunc ((now - lc) / 60) = ⌊(now - lc) / 60⌋ := by
    unfold pyTrunc
    rw [if_pos hxnn]
  have hx : (now - lc) / 60 < ((⌊(now - lc) / 60⌋ : ℤ) : ℚ) + 1 :=
    Int.lt_floor_add_one _
  have hxmul : (now - lc) / 60 * 60 = now - lc :=
    div_mul_cancel₀ _ (by norm_num : (60 : ℚ) ≠ 0)
  have key : now - (minutesBack lc now : ℚ) * 60 < lc := by
    unfold minutesBack
    rw [hxt]
    push_cast
    nlinarith [mul_lt_mul_of_pos_right hx h60]
  refine ⟨rfl, ⟨now - (minutesBack lc now : ℚ) * 60, rfl, key⟩, ?_, ?_, rfl⟩
  · intro t ht1 ht2
    simp only [serviceQuery, matchesFilter, Bool.and_eq_true, decide_eq_true_eq]
    exact ⟨le_trans key.le ht1, ht2⟩
  · intro t ht
    simp only [serviceQuery, matchesFilter, Bool.and_eq_false_iff, decide_eq_false_iff_not]
    right
    exact not_lt.mpr ht

/-- Witness for C5's amended claim at watermark `0`, `now = 90`: page size
10,000; `t = 10` (inside `[watermark, now)`) matches the filter; `t = 95`
(at/after `now`) does not. -/
theorem serviceQuery_superset_witness :
    (serviceQuery 0 90).size = 10000 ∧
    matchesFilter (serviceQuery 0 90).filter 10 = true ∧
    matchesFilter (serviceQuery 0 90).filter 95 = false :=
  ⟨(serviceQuery_superset 0 90 (by norm_num)).1,
   (serviceQuery_superset 0 90 (by norm_num)).2.2.1 10 (by norm_num) (by norm_num),
   (serviceQuery_superset 0 90 (by norm_num)).2.2.2.1 95 (by norm_num)⟩

/-! ### C7 — unparseable timestamp fails the whole batch (counterexample) -/

/-- C7 (corrected), counterexample: a batch holding one good record and one
record with an unparseable timestamp makes `process_logs` raise from
`pd.to_datetime` — no record of the batch is processed, rather than the
single bad record being dropped. -/
theorem bad_timestamp_fails_whole_batch :
    process_logs [] [exGoodHit, exBadHit]
      = Except.error "to_datetime: unable to parse timestamp" := by
  decide

/-- C7 (corrected), amended claim: a record whose timestamp cannot be
parsed makes the batch-wide `pd.to_datetime` conversion raise, so
`process_logs` fails for the entire batch — every record of the batch is
lost for that check, not just the offending one; no record is ever given a
default timestamp. -/
theorem bad_timestamp_raises (s : Stats) (hits : List Source)
    (h : ∃ x ∈ hits, (extractRecord x).timestamp = TSField.unparseable) :
    process_logs s hits = Except.error "to_datetime: unable to parse timestamp" := by
  obtain ⟨x, hx, hts⟩ := h
  have hne : (hits.map extractRecord).isEmpty = false := by
    cases hits with
    | nil => cases hx
    | cons a l => rfl
  have hany : (hits.map extractRecord).any
      (fun r => decide (r.timestamp = TSField.unparseable)) = true := by
    rw [List.any_eq_true]
    exact ⟨extractRecord x, List.mem_map_of_mem _ hx, by simp [hts]⟩
  unfold process_logs computeFeatures
  simp [hne, hany, Except.map]

/-- Witness for C7's amended claim at a singleton batch. -/
theorem bad_timestamp_raises_witness :
    process_logs [] [exBadHit]
      = Except.error "to_datetime: unable to parse timestamp" :=
  bad_timestamp_raises [] [exBadHit] ⟨exBadHit, List.mem_singleton.mpr rfl, rfl⟩

/-! ### C6 — error-rate invariant of the aggregator -/

theorem groupOf_ne_nil (k : ℚ × String × String) (rs : List (ℚ × LogRecord))
    (hk : k ∈ groupKeys rs) : groupOf k rs ≠ [] := by
  obtain ⟨p, hp, hpk⟩ := List.mem_map.mp (List.mem_dedup.mp hk)
  have : p ∈ groupOf k rs :=
    List.mem_filter.mpr ⟨hp, by simp [hpk]⟩
  exact List.ne_nil_of_mem this

theorem aggregateGroup_error_rate (k : ℚ × String × String)
    (g : List (ℚ × LogRecord)) (hg : g ≠ []) :
    0 < (aggregateGroup k g).duration_ms_count ∧
    (aggregateGroup k g).is_error_sum ≤ (aggregateGroup k g).duration_ms_count ∧
    (aggregateGroup k g).error_rate =
      100 * ((aggregateGroup k g).is_error_sum : ℚ)
        / ((aggregateGroup k g).duration_ms_count : ℚ) ∧
    0 ≤ (aggregateGroup k g).error_rate ∧
    (aggregateGroup k g).error_rate ≤ 100 := by
  have hn : 0 < g.length := List.length_pos.mpr hg
  have hle : (g.filter fun p => p.2.is_error).length ≤ g.length :=
    List.length_filter_le _ _
  have hnq : (0 : ℚ) < (g.length : ℚ) := by exact_mod_cast hn
  refine ⟨hn, hle, by simp [aggregateGroup]; ring, ?_, ?_⟩
  · have h0 : (0 : ℚ) ≤ ((g.filter fun p => p.2.is_error).length : ℚ) / (g.length : ℚ) :=
      div_nonneg (by positivity) hnq.le
    simpa [aggregateGroup] using mul_nonneg h0 (by norm_num : (0 : ℚ) ≤ 100)
  · have h1 : ((g.filter fun p => p.2.is_error).length : ℚ) / (g.length : ℚ) ≤ 1 :=
      (div_le_one hnq).mpr (by exact_mod_cast hle)
    have := mul_le_mul_of_nonneg_right h1 (by norm_num : (0 : ℚ) ≤ 100)
    simpa [aggregateGroup] using this

/-- C6 (confirmed): every feature window `process_logs` produces comes from
a nonempty group; its `error_rate` equals exactly
`100 * error_count / count` (with `error_count = is_error_sum`, the number
of records in the group with `is_error` true, and `count` the group size),
and lies in `[0, 100]`. -/
theorem error_rate_invariant (s : Stats) (hits : List Source)
    (stats' : Stats) (rows : List FeatureRow) (row : FeatureRow)
    (hok : process_logs s hits = Except.ok (stats', rows)) (hrow : row ∈ rows) :
    0 < row.duration_ms_count ∧
    row.is_error_sum ≤ row.duration_ms_count ∧
    row.error_rate = 100 * (row.is_error_sum : ℚ) / (row.duration_ms_count : ℚ) ∧
    0 ≤ row.error_rate ∧ row.error_rate ≤ 100 := by
  unfold process_logs at hok
  cases hcf : computeFeatures hits with
  | error e => rw [hcf] at hok; cases hok
  | ok rows0 =>
      rw [hcf] at hok
      injection hok with hok
      injection hok with hok1 hok2
      subst hok2
      unfold computeFeatures at hcf
      by_cases h1 : (hits.map extractRecord).isEmpty = true
      · rw [if_pos h1] at hcf
        injection hcf with hcf
        subst hcf
        cases hrow
      · rw [if_neg h1] at hcf
        by_cases h2 : ((hits.map extractRecord).any
            fun r => decide (r.timestamp = TSField.unparseable)) = true
        · rw [if_pos h2] at hcf
          cases hcf
        · rw [if_neg h2] at hcf
          injection hcf with hcf
          subst hcf
          obtain ⟨k, hk, hrow'⟩ := List.mem_map.mp hrow
          subst hrow'
          exact aggregateGroup_error_rate k _
            (groupOf_ne_nil k _ hk)

/-- Witness for C6 at the one-record batch `[exGoodHit]`, whose single
window is `exRow1` with `error_rate = 0` of `count = 1`. -/
theorem error_rate_invariant_witness :
    process_logs [] [exGoodHit] = Except.ok (exStats1, [exRow1]) ∧
    (0 < exRow1.duration_ms_count ∧
     exRow1.is_error_sum ≤ exRow1.duration_ms_count ∧
     exRow1.error_rate =
       100 * (exRow1.is_error_sum : ℚ) / (exRow1.duration_ms_count : ℚ) ∧
     0 ≤ exRow1.error_rate ∧ exRow1.error_rate ≤ 100) :=
  ⟨by decide,
   error_rate_invariant [] [exGoodHit] exStats1 [exRow1] exRow1 (by decide)
     (List.mem_singleton.mpr rfl)⟩

/-! ### C10 — invariant of the service-statistics map -/

theorem statLookup_setEntry (s : Stats) (k k' : String) (e : StatEntry) :
    statLookup (setEntry s k e) k' = if k = k' then some e else statLookup s k' := by
  induction s with
  | nil => rfl
  | cons he s ih =>
      obtain ⟨k₀, e₀⟩ := he
      by_cases h0 : k₀ = k
      · subst h0
        simp only [setEntry, if_pos rfl, statLookup]
        by_cases h1 : k₀ = k'
        · subst h1; simp
        · simp [h1]
      · simp only [setEntry, if_neg h0, statLookup]
        by_cases h1 : k₀ = k'
        · subst h1
          have hk : ¬ k = k₀ := fun h => h0 h.symm
          simp [hk]
        · simp [h1, ih]

theorem statsInv_updateStatsRow (s : Stats) (row : FeatureRow)
    (h : StatsInv s) : StatsInv (updateStatsRow s row) := by
  intro k' e' hl
  unfold updateStatsRow at hl
  rw [statLookup_setEntry] at hl
  by_cases hk : statKey row.service row.endpoint = k'
  · rw [if_pos hk] at hl
    injection hl with hl
    subst hl
    cases hb : statLookup s (statKey row.service row.endpoint) with
    | none => simp [hb, bumpEntry, freshEntry]
    | some e0 =>
        have h0 := h _ _ hb
        simpa [hb, bumpEntry] using h0
  · rw [if_neg hk] at hl
    exact h _ _ hl

theorem statsInv_updateStats (rows : List FeatureRow) :
    ∀ s : Stats, StatsInv s → StatsInv (updateStats s rows) := by
  induction rows with
  | nil => intro s h; exact h
  | cons row rest ih =>
      intro s h
      exact ih (updateStatsRow s row) (statsInv_updateStatsRow s row h)

theorem statsInv_recordAnomalyStats (s : Stats) (row : ScoredRow)
    (h : StatsInv s) : StatsInv (recordAnomalyStats s row) := by
  unfold recordAnomalyStats
  dsimp only
  cases hb : statLookup s (statKey row.service row.endpoint) with
  | none => exact h
  | some e0 =>
      intro k' e' hl
      rw [statLookup_setEntry] at hl
      by_cases hk : statKey row.service row.endpoint = k'
      · rw [if_pos hk] at hl
        injection hl with hl
        subst hl
        constructor
        · intro _; exact Nat.succ_le_succ (Nat.zero_le _)
        · intro _; simp
      · rw [if_neg hk] at hl
        exact h _ _ hl

theorem statsInv_recordAnomalies (rows : List ScoredRow) :
    ∀ s : Stats, StatsInv s → StatsInv (rows.foldl recordAnomalyStats s) := by
  induction rows with
  | nil => intro s h; exact h
  | cons row rest ih =>
      intro s h
      exact ih (recordAnomalyStats s row) (statsInv_recordAnomalyStats s row h)

theorem statsInv_empty : StatsInv ([] : Stats) := by
  intro k e hl
  cases hl

theorem reloadIfNeeded_service_stats (st : SMState) (env : CheckEnv) :
    (reloadIfNeeded st env).service_stats = st.service_stats := by
  unfold reloadIfNeeded
  rcases hm : st.model with _ | M <;> simp [hm]

theorem process_logs_ok (s : Stats) (hits : List Source) (stats' : Stats)
    (rows : List FeatureRow)
    (hok : process_logs s hits = Except.ok (stats', rows)) :
    stats' = updateStats s rows := by
  unfold process_logs at hok
  cases hcf : computeFeatures hits with
  | error e => rw [hcf] at hok; cases hok
  | ok rows0 =>
      rw [hcf] at hok
      injection hok with hok
      injection hok with hok1 hok2
      subst hok2
      exact hok1.symm

theorem run_check_core_stats (st : SMState) (env : CheckEnv) :
    (run_check_core st env).1.service_stats = st.service_stats ∨
    (∃ rows, (run_check_core st env).1.service_stats
        = updateStats st.service_stats rows) ∨
    (∃ rows a, (run_check_core st env).1.service_stats
        = List.foldl recordAnomalyStats (updateStats st.service_stats rows) a) := by
  obtain ⟨mo, lc, ss, ah⟩ := st
  unfold run_check_core
  rcases mo with _ | M
  · exact Or.inl rfl
  · dsimp only
    rcases hf : env.fetch (serviceQuery lc env.now) with e | hits
    · exact Or.inl rfl
    · by_cases hh : hits.isEmpty = true
      · simp [hh]
      · rcases hp : process_logs ss hits with e | p
        · simp [hh, hp]
        · obtain ⟨stats', rows⟩ := p
          have hst : stats' = updateStats ss rows := process_logs_ok ss hits stats' rows hp
          by_cases hr : rows.isEmpty = true
          · simp only [hh, hp, hr]
            simp [hst]
          · rcases hd : detect_anomalies ⟨some M, lc, stats', ah⟩ rows with ⟨st', res⟩
            have h2 := detect_anomalies_cases ⟨some M, lc, stats', ah⟩ rows
            rw [hd] at h2
            dsimp only at h2
            have hstats : st'.service_stats = stats' ∨
                ∃ a, st'.service_stats = List.foldl recordAnomalyStats stats' a := by
              rcases h2 with h2 | ⟨a, h2⟩
              · exact Or.inl (by rw [h2])
              · exact Or.inr ⟨a, by rw [h2]⟩
            rcases res with e | dr
            · simp only [hh, hp, hr, hd]
              rcases hstats with h3 | ⟨a, h3⟩
              · exact Or.inr (Or.inl ⟨rows, by simp [h3, hst]⟩)
              · exact Or.inr (Or.inr ⟨rows, a, by simp [h3, hst]⟩)
            · rcases dr with rows' | srows
              · simp only [hh, hp, hr, hd]
                rcases hstats with h3 | ⟨a, h3⟩
                · exact Or.inr (Or.inl ⟨rows, by simp [h3, hst]⟩)
                · exact Or.inr (Or.inr ⟨rows, a, by simp [h3, hst]⟩)
              · simp only [hh, hp, hr, hd]
                rcases hstats with h3 | ⟨a, h3⟩
                · exact Or.inr (Or.inl ⟨rows, by simp [h3, hst]⟩)
                · exact Or.inr (Or.inr ⟨rows, a, by simp [h3, hst]⟩)

/-- C10 (confirmed): entries of the service-statistics map are created with
`anomaly_count = 0` and `last_anomaly = None`; every map reachable through
the two update sites (the counter upsert of `process_logs`, the anomaly
recording of `detect_anomalies`) satisfies `last_anomaly ≠ None ↔
anomaly_count ≥ 1`; and `run_check` only ever moves the map along those two
update sites, so the reachable set is closed under whole checks. -/
theorem service_stats_invariant :
    (∀ sv ep, (freshEntry sv ep).anomaly_count = 0 ∧
      (freshEntry sv ep).last_anomaly = none) ∧
    (∀ s, StatsReachable s → StatsInv s) ∧
    (∀ (st : SMState) (env : CheckEnv), StatsReachable st.service_stats →
      StatsReachable ((run_check st env).1.service_stats)) := by
  refine ⟨fun sv ep => ⟨rfl, rfl⟩, ?_, ?_⟩
  · intro s hs
    induction hs with
    | init => exact statsInv_empty
    | processStep s rows _ ih => exact statsInv_updateStats rows s ih
    | detectStep s rows _ ih => exact statsInv_recordAnomalies rows s ih
  · intro st env hreach
    unfold run_check
    have hre := reloadIfNeeded_service_stats st env
    have h := run_check_core_stats (reloadIfNeeded st env) env
    rw [hre] at h
    rcases h with h | ⟨rows, h⟩ | ⟨rows, a, h⟩
    · rw [h]; exact hreach
    · rw [h]; exact StatsReachable.processStep _ _ hreach
    · rw [h]
      exact StatsReachable.detectStep _ a (StatsReachable.processStep _ _ hreach)

/-- Witness for C10: the invariant holds at the concrete map obtained by
one `process_logs` upsert from the empty map. -/
theorem service_stats_invariant_witness :
    statLookup (updateStats [] [exRow1]) "svc:/x" = some exEntry1 ∧
    (exEntry1.last_anomaly ≠ none ↔ 1 ≤ exEntry1.anomaly_count) :=
  ⟨by decide,
   service_stats_invariant.2.1 (updateStats [] [exRow1])
     (StatsReachable.processStep [] [exRow1] StatsReachable.init)
     "svc:/x" exEntry1 (by decide)⟩

end APILogS
